import Mathlib

/-!
Verification of the batch network-file download engine
(`src/network_tools/batch_downloader.py`) against its specification.

The Python code is shallowly embedded: HTTP headers are association lists,
the parsed URL is a structure holding the fields `urlparse` provides,
stateful code is explicit state passing, and the retry loop is a
structurally recursive function on the remaining retry budget.
Line numbers in the doc comments refer to `batch_downloader.py`.
-/

set_option linter.unusedVariables false

namespace BatchDownloader

/-- Result of Python's `urlparse` for the fields the downloader inspects. -/
structure URL where
  scheme : String
  netloc : String
deriving DecidableEq, Repr

/-- HTTP headers, modelling the Python `dict[str, str]` as an association
list in insertion order (`headers[k] = v` appends when `k` is absent). -/
abbrev Headers := List (String × String)

/-- The downloader's aggregate counters (`self.stats`, lines 121-129). -/
structure Stats where
  successful : Nat
  failed : Nat
  skipped : Nat
  totalBytes : Nat
  completedUrls : List URL
deriving DecidableEq, Repr

/-- Embeds `_validate_url` (lines 270-283): the scheme must be `http` or
`https` and the host (netloc) non-empty. -/
def validate_url (u : URL) : Bool :=
  (u.scheme == "http" || u.scheme == "https") && !(u.netloc == "")

/-- Embeds `_get_resume_header` (lines 389-401): starting from a copy of the
configured base headers, if resume is on, the partial file exists and is
non-empty, a `Range` header from the partial file's current length is added. -/
def get_resume_header (resume : Bool) (baseHeaders : Headers)
    (tempExists : Bool) (tempSize : Nat) : Headers :=
  if !resume || !tempExists then baseHeaders
  else if 0 < tempSize then
    baseHeaders ++ [("Range", "bytes=" ++ toString tempSize ++ "-")]
  else baseHeaders

/-- Embeds `_enhance_headers` (lines 461-491): starting from a copy of the
configured base headers, adds browser-like defaults for any of
`User-Agent`, `Accept`, `Accept-Language`, `Accept-Encoding`, `Referer`
that the base headers do not already define.  The `ua` argument stands for
the randomly chosen user-agent string. -/
def enhance_headers (baseHeaders : Headers) (ua : String) (u : URL) : Headers :=
  let h1 := if (baseHeaders.lookup "User-Agent").isSome then baseHeaders
            else baseHeaders ++ [("User-Agent", ua)]
  let h2 := if (h1.lookup "Accept").isSome then h1
            else h1 ++ [("Accept", "*/*")]
  let h3 := if (h2.lookup "Accept-Language").isSome then h2
            else h2 ++ [("Accept-Language", "en-US,en;q=0.9")]
  let h4 := if (h3.lookup "Accept-Encoding").isSome then h3
            else h3 ++ [("Accept-Encoding", "gzip, deflate, br")]
  if (h4.lookup "Referer").isSome then h4
  else h4 ++ [("Referer", u.scheme ++ "://" ++ u.netloc)]

/-- Embeds lines 632-638 of `download_file`: the headers actually passed to
the streamed `GET`.  Line 634 computes the resume headers into `headers`,
and line 635 immediately rebinds `headers` to `_enhance_headers(url)`,
which starts over from the configured base headers. -/
def streaming_request_headers (resume : Bool) (baseHeaders : Headers)
    (tempExists : Bool) (tempSize : Nat) (ua : String) (u : URL) : Headers :=
  let headers := get_resume_header resume baseHeaders tempExists tempSize
  let headers := enhance_headers baseHeaders ua u
  headers

/-- Models the Network Client collaborator (spec section 6): a server
holding a `T`-byte resource sends only the suffix from byte `start` when
the request carries the range header `bytes=start-`, and the whole body
otherwise. -/
def server_bytes_sent (T start : Nat) (h : Headers) : Nat :=
  if h.lookup "Range" = some ("bytes=" ++ toString start ++ "-") then T - start
  else T

/-- Models the size of the final file after a clean finish: the partial file
is opened for append exactly when resume is on and it exists (line 575:
`mode = "ab" if self.resume and temp_path.exists() else "wb"`), and every
byte the server sends is appended (lines 671-689) before the rename
(line 699). -/
def clean_finish_file_size (T partSize : Nat) (resume tempExists : Bool)
    (h : Headers) : Nat :=
  let modeAppend := resume && tempExists
  (if modeAppend then partSize else 0) + server_bytes_sent T partSize h

/-- Outcome of one job as returned by `download_file`:
`(success, file_path, downloaded_bytes)` (line 504). -/
structure JobOutcome where
  success : Bool
  path : String
  bytes : Nat
deriving DecidableEq, Repr

/-- Embeds the job-selection part of `download_batch` (lines 805-844): first
invalid URLs are filtered out, then, when `continue_from_state` is set,
URLs already in `completed_urls` are filtered out.  The returned list is
exactly the jobs the batch runs. -/
def batch_urls_to_run (contState : Bool) (completed : List URL)
    (urls : List URL) : List URL :=
  let valid := urls.filter validate_url
  if contState then valid.filter (fun u => !(completed.contains u)) else valid

/-- Embeds the result-aggregation loop of `download_batch` (lines 907-922):
for each completed job, `results[url] = file_path` only when the job
succeeded; a failed job is only logged.  The aggregation order across jobs
is the unspecified completion order; the dict is modelled as an association
list in that order. -/
def collect_results (outcome : URL → JobOutcome) : List URL → List (URL × String)
  | [] => []
  | u :: rest =>
    if (outcome u).success then (u, (outcome u).path) :: collect_results outcome rest
    else collect_results outcome rest

/-- Embeds `download_batch` (lines 790-959) at the level of its return value:
runs each selected job through the per-job outcome function and aggregates
the results map. -/
def download_batch (contState : Bool) (completed : List URL)
    (outcome : URL → JobOutcome) (urls : List URL) : List (URL × String) :=
  collect_results outcome (batch_urls_to_run contState completed urls)

/-- Success bookkeeping (lines 717-718): increments `successful` and adds
the URL to `completed_urls`. -/
def mark_success (st : Stats) (u : URL) : Stats :=
  { st with successful := st.successful + 1,
            completedUrls := st.completedUrls ++ [u] }

/-- Result of the final phase of `download_file`. -/
structure FinishResult where
  success : Bool
  path : String
  bytes : Nat
  stats : Stats
deriving DecidableEq, Repr

/-- Embeds the finish phase of `download_file` (lines 697-723): after a clean
end of stream, the partial file is renamed to the final path; if the rename
fails, `shutil.copy2` plus `os.remove` is tried; if that also fails the
function returns `True` with the partial file's path (line 710), updating
no counters.  On either successful move the job is recorded successful. -/
def finish_download (st : Stats) (u : URL) (finalPath tempPath : String)
    (downloadedBytes : Nat) (renameOk copyOk : Bool) : FinishResult :=
  if renameOk then
    ⟨true, finalPath, downloadedBytes, mark_success st u⟩
  else if copyOk then
    ⟨true, finalPath, downloadedBytes, mark_success st u⟩
  else
    ⟨true, tempPath, downloadedBytes, st⟩

/-- Embeds the return value of `main` (lines 1152-1237): `1` when an
exception escapes the whole body (line 1237) or the batch block
(line 1231), `none` (Python `None`) when there are no URLs (line 1171),
and otherwise `0` (line 1233) — the batch statistics are not consulted. -/
def main_return (st : Stats) (noUrls batchException fatalException : Bool) :
    Option Nat :=
  if fatalException then some 1
  else if noUrls then none
  else if batchException then some 1
  else some 0

/-- Embeds the `__main__` block (lines 1240-1250): `sys.exit(130)` on
keyboard interrupt, otherwise `sys.exit` of `main`'s return value, where
`sys.exit(None)` exits with status `0` (a startup exception is already
covered by `main`'s own catch-all, which returns `1`). -/
def process_exit_code (st : Stats)
    (noUrls batchException fatalException keyboardInterrupt : Bool) : Nat :=
  if keyboardInterrupt then 130
  else (main_return st noUrls batchException fatalException).getD 0

/-- One backoff transition of the retry loop: on the failure of an attempt,
`retry_count` is incremented to `attempt`, the unit sleeps for `delay`
seconds, and streaming is re-entered with `bytesEntering` already
accumulated in `downloaded_bytes`. -/
structure RetryEvent where
  attempt : Nat
  delay : ℚ
  bytesEntering : Nat
deriving DecidableEq, Repr

/-- Observable outcome of the retry loop of `download_file`. -/
structure LoopResult where
  attempts : Nat
  success : Bool
  failedInc : Nat
  events : List RetryEvent
  finalBytes : Nat
deriving DecidableEq, Repr

/-- Embeds the `while retry_count <= self.max_retries` loop of
`download_file` (lines 630-777), with the loop condition turned into a
fuel argument kept equal to `m + 1 - retry_count` (the exact number of
times the loop can still run).  Each iteration makes one attempt with the
current 1-based attempt number `rc + 1`: on success the loop returns; on a
recoverable error `retry_count` is incremented (lines 726/758), and if it
now exceeds `max_retries` the job is recorded as one failure
(lines 738-746/761-769), otherwise the unit sleeps
`2 ** retry_count + random.uniform(0, 2)` seconds (lines 749/771) and
re-enters streaming with `downloaded_bytes` untouched.  `gain k` is the
number of body bytes attempt `k` appends before its outcome, `jitter k`
the random draw of retry `k`.  The fuel-0 base case is the unreachable
fall-through of the `while`. -/
def attempt_loop_aux (m : Nat) (attemptOk : Nat → Bool) (gain : Nat → Nat)
    (jitter : Nat → ℚ) : Nat → Nat → Nat → LoopResult
  | 0, _, b => ⟨0, false, 0, [], b⟩
  | fuel + 1, rc, b =>
    let k := rc + 1
    if attemptOk k then ⟨1, true, 0, [], b + gain k⟩
    else
      let b2 := b + gain k
      if m < k then ⟨1, false, 1, [], b2⟩
      else
        let rest := attempt_loop_aux m attemptOk gain jitter fuel k b2
        ⟨rest.attempts + 1, rest.success, rest.failedInc,
         ⟨k, (2 : ℚ) ^ k + jitter k, b2⟩ :: rest.events, rest.finalBytes⟩

/-- The retry loop entered with `retry_count = 0` and `downloaded_bytes =
b0` (line 574 sets it to 0; line 604 sets it to the partial file's size
when resuming). -/
def download_attempt_loop (m : Nat) (attemptOk : Nat → Bool)
    (gain : Nat → Nat) (jitter : Nat → ℚ) (b0 : Nat) : LoopResult :=
  attempt_loop_aux m attemptOk gain jitter (m + 1) 0 b0

/-- Total body bytes accumulated by attempts `1..k`. -/
def gain_sum (g : Nat → Nat) : Nat → Nat
  | 0 => 0
  | k + 1 => gain_sum g k + g (k + 1)

/-- Observable effect of the early phases of `download_file`.  `outcome` is
`some r` when the function returns before the streaming loop and `none`
when it proceeds to it; the counters record increments of `self.stats`,
content-type probes, size probes and streamed body requests issued in
these phases. -/
structure EntryResult where
  outcome : Option JobOutcome
  failedInc : Nat
  skippedInc : Nat
  headRequests : Nat
  sizeProbes : Nat
  bodyRequests : Nat
  retrySleeps : Nat
deriving DecidableEq, Repr

/-- Embeds the entry phases of `download_file` (lines 506-628), before the
retry loop.  In order: an invalid URL fails immediately with no network
call (lines 506-510); a URL already in `completed_urls` is skipped
(lines 514-518); the filename resolution may issue one content-type HEAD
probe when the name lacks a suffix (`needsTypeProbe`, lines 548-554);
then, if the final path exists and overwrite is off, the job is skipped
with zero bytes (lines 578-586); otherwise one size probe is made
(line 590) and the streaming loop is entered. -/
def download_file_entry (overwrite : Bool) (completed : List URL) (u : URL)
    (resolvedPath : String) (needsTypeProbe finalExists : Bool) : EntryResult :=
  if !(validate_url u) then
    ⟨some ⟨false, "", 0⟩, 1, 0, 0, 0, 0, 0⟩
  else if completed.contains u then
    ⟨some ⟨true, resolvedPath, 0⟩, 0, 1, 0, 0, 0, 0⟩
  else
    let heads := if needsTypeProbe then 1 else 0
    if finalExists && !overwrite then
      ⟨some ⟨true, resolvedPath, 0⟩, 0, 1, heads, 0, 0, 0⟩
    else
      ⟨none, 0, 0, heads, 1, 0, 0⟩

/-- Embeds `fetch_file_size` (lines 285-324) as a function of the first
`Content-Length` value the probes can see: a known length is clamped up to
at least 1024 (lines 298-300/310-312); when no length is obtainable a
1 MB placeholder is returned (lines 316-324). -/
def fetch_file_size (contentLength : Option Nat) : Nat :=
  match contentLength with
  | some n => max n 1024
  | none => 1024 * 1024

/-- Embeds the in-stream size update of `download_file` (lines 644-663):
a positive response `Content-Length` overwrites `file_size` with
`total + downloaded_bytes`; afterwards a zero size is bumped to 1024. -/
def stream_update_size (fileSize downloadedBytes : Nat)
    (contentLength : Option Nat) : Nat :=
  let fs := match contentLength with
            | some total => if 0 < total then total + downloadedBytes else fileSize
            | none => fileSize
  if fs = 0 then 1024 else fs

/-- Embeds the total-size update of `_update_progress_bar` (lines 199-203):
a positive new total raises the bar's total to the max of the old and new
values. -/
def update_progress_total (pbarTotal : Nat) (newTotal : Option Nat) : Nat :=
  match newTotal with
  | some t => if 0 < t then max pbarTotal t else pbarTotal
  | none => pbarTotal

/-- Embeds the cooldown recomputation of `_check_domain_cooldown`
(lines 447-459).  `base` stands for the `random.uniform` draw — over
`[min_delay, max_delay]` when `random_delay` is on, `[0, 0.5]` otherwise.
For a domain seen before, the new cooldown is
`min(prev_cooldown * 1.2, 30.0)` and the fresh base is not used; only a
first access uses the base. -/
def check_domain_cooldown_update (randomDelay : Bool) (minDelay maxDelay : ℚ)
    (base : ℚ) (prev : Option ℚ) : ℚ :=
  match prev with
  | some p => min (p * (6 / 5)) 30
  | none => base

/-- The cooldown values of one domain over consecutive throttle-gate passes
that all arrive within the window: `c0` is the cooldown stored by the first
access, and each later pass recomputes it via
`check_domain_cooldown_update` with a fresh draw `baseDraw n`. -/
def cooldown_seq (rd : Bool) (minD maxD : ℚ) (baseDraw : Nat → ℚ)
    (c0 : ℚ) : Nat → ℚ
  | 0 => c0
  | n + 1 =>
    check_domain_cooldown_update rd minD maxD (baseDraw (n + 1))
      (some (cooldown_seq rd minD maxD baseDraw c0 n))

/-- Attempt oracle of a job whose every streaming attempt raises a
retryable error. -/
def always_failing (k : Nat) : Bool := false

/-- Concrete valid URL used in witnesses. -/
def demo_url : URL := ⟨"http", "example.com"⟩

/-- Concrete invalid URL (scheme is not http/https). -/
def demo_bad_url : URL := ⟨"ftp", "example.com"⟩

/-- Concrete user-agent stand-in. -/
def demo_ua : String := "TestAgent/1.0"

/-- Fresh statistics record. -/
def demo_stats : Stats := ⟨0, 0, 0, 0, []⟩

/-- Statistics of a finished batch with one failed job. -/
def demo_failed_stats : Stats := ⟨2, 1, 0, 0, []⟩

/-- Outcome function under which every job fails permanently. -/
def demo_fail_outcome (u : URL) : JobOutcome := ⟨false, "", 0⟩

/-- Concrete per-attempt byte gains. -/
def demo_gain (k : Nat) : Nat := 10 * k

/-- Concrete jitter draw, constant 1 second (inside `[0, 2]`). -/
def demo_jitter (k : Nat) : ℚ := 1

/-- Concrete fresh-base draw, deliberately huge to show it is ignored for a
known domain. -/
def demo_base (n : Nat) : ℚ := 100

/-- Retry event produced by the first failed attempt under `demo_gain`,
`demo_jitter` and 7 initial bytes: a 3-second wait re-entering with 17
bytes. -/
def demo_event : RetryEvent := ⟨1, (2 : ℚ) ^ 1 + demo_jitter 1, 17⟩

/-- C1: with resume enabled and a 500-byte partial file of a 1500-byte
resource, `_get_resume_header` does produce `Range: bytes=500-`, but the
headers actually sent by the streamed GET in `download_file` contain no
`Range` header, because line 635 rebinds `headers` to
`_enhance_headers(url)`, discarding line 634's result.  The file is still
opened for append, so a clean finish yields a 2000-byte file with 1500
bytes transferred instead of the claimed 1500-byte file with 1000 bytes
transferred (which the discarded resume headers would have produced). -/
theorem C1_resume_range_header_discarded :
    (get_resume_header true [] true 500).lookup "Range" = some "bytes=500-" ∧
    (streaming_request_headers true [] true 500 demo_ua demo_url).lookup "Range"
      = none ∧
    server_bytes_sent 1500 500 (streaming_request_headers true [] true 500 demo_ua demo_url)
      = 1500 ∧
    clean_finish_file_size 1500 500 true true
      (streaming_request_headers true [] true 500 demo_ua demo_url) = 2000 ∧
    server_bytes_sent 1500 500 (get_resume_header true [] true 500) = 1000 ∧
    clean_finish_file_size 1500 500 true true (get_resume_header true [] true 500)
      = 1500 := by
  decide

/-- C2 counterexample: a valid URL whose job fails permanently is run by the
batch but has no entry in the returned map, contradicting the claim that
every ran job appears in it. -/
theorem C2_counterexample :
    demo_url ∈ batch_urls_to_run false [] [demo_url] ∧
    (download_batch false [] demo_fail_outcome [demo_url]).lookup demo_url
      = none := by
  decide

/-- Key set of the aggregation loop: exactly the successful jobs. -/
theorem collect_results_keys (outcome : URL → JobOutcome) :
    ∀ l : List URL, (collect_results outcome l).map Prod.fst
      = l.filter (fun u => (outcome u).success) := by
  intro l
  induction l with
  | nil => rfl
  | cons u rest ih =>
    by_cases h : (outcome u).success = true
    · simp [collect_results, h, List.filter_cons, ih]
    · simp [collect_results, h, List.filter_cons, ih]

/-- C2 (amended): the map returned by `download_batch` has an entry exactly
for the jobs it ran whose outcome succeeded; permanently failed jobs are
absent from the map. -/
theorem C2_results_map_keys (contState : Bool) (completed : List URL)
    (outcome : URL → JobOutcome) (urls : List URL) :
    (download_batch contState completed outcome urls).map Prod.fst
      = (batch_urls_to_run contState completed urls).filter
          (fun u => (outcome u).success) := by
  unfold download_batch
  exact collect_results_keys outcome _

/-- C3 counterexample: when both the rename and the copy+delete fallback
fail, the job is reported as a success (with the partial file's path) and
the failed counter is unchanged, contradicting the claim that it is
recorded as a failure. -/
theorem C3_counterexample :
    (finish_download demo_stats demo_url "file.bin" "file.bin.part" 100 false false).success
      = true ∧
    (finish_download demo_stats demo_url "file.bin" "file.bin.part" 100 false false).stats.failed
      = demo_stats.failed := by
  decide

/-- C3 (amended): a failed rename falls back to copy+delete, and when the
fallback succeeds the job completes normally at the final path; when the
fallback also fails the job is still returned as a success, but with the
partial file's path and with no statistics update at all. -/
theorem C3_rename_fallback (st : Stats) (u : URL) (fp tp : String) (b : Nat) :
    finish_download st u fp tp b false true = ⟨true, fp, b, mark_success st u⟩ ∧
    finish_download st u fp tp b false false = ⟨true, tp, b, st⟩ := by
  constructor <;> rfl

/-- C4 counterexample: a completed batch with one failed job exits with
status 0, contradicting the claim that the exit status is non-zero iff at
least one job failed. -/
theorem C4_counterexample :
    ¬ ((process_exit_code demo_failed_stats false false false false ≠ 0) ↔
        1 ≤ demo_failed_stats.failed) := by
  decide

/-- C4 (amended): the process exit status is independent of the batch
statistics; it is zero exactly when the run was not interrupted, no fatal
exception occurred, and either there were no URLs or no exception escaped
the batch block — per-job failures never make it non-zero. -/
theorem C4_exit_code_ignores_failures (st st' : Stats)
    (noUrls bexc fexc kint : Bool) :
    process_exit_code st noUrls bexc fexc kint
      = process_exit_code st' noUrls bexc fexc kint ∧
    (process_exit_code st noUrls bexc fexc kint = 0 ↔
      (kint = false ∧ fexc = false ∧ (noUrls = true ∨ bexc = false))) := by
  cases noUrls <;> cases bexc <;> cases fexc <;> cases kint <;>
    simp [process_exit_code, main_return]

/-- C6: a URL that fails validation makes `download_file` return a
permanent failure immediately — the failed counter is incremented by one
and no content-type probe, size probe, body request, or retry sleep
happens. -/
theorem C6_invalid_url (overwrite : Bool) (completed : List URL) (u : URL)
    (rp : String) (ntp fe : Bool) (h : validate_url u = false) :
    download_file_entry overwrite completed u rp ntp fe
      = ⟨some ⟨false, "", 0⟩, 1, 0, 0, 0, 0, 0⟩ := by
  simp [download_file_entry, h]

/-- Witness for C6 at the concrete invalid URL `ftp://example.com`. -/
theorem C6_invalid_url_witness :
    validate_url demo_bad_url = false ∧
    download_file_entry false [] demo_bad_url "f.bin" false false
      = ⟨some ⟨false, "", 0⟩, 1, 0, 0, 0, 0, 0⟩ :=
  ⟨by decide, C6_invalid_url false [] demo_bad_url "f.bin" false false (by decide)⟩

/-- C7 counterexample: for a 500-byte resource the probe learns a total of
1024 (the clamp floor of `fetch_file_size`), and the streamed response's
Content-Length inspection then overwrites it with 500 — a later-learned
total smaller than the earlier one, contradicting monotonicity. -/
theorem C7_counterexample :
    stream_update_size (fetch_file_size (some 500)) 0 (some 500)
      < fetch_file_size (some 500) := by
  decide

/-- C7 (amended): the internal `total_size` is simply overwritten and can
decrease (see the counterexample); the only monotone total in the code is
the progress bar's, which `_update_progress_bar` only ever raises. -/
theorem C7_progress_total_monotone (pbarTotal : Nat) (newTotal : Option Nat) :
    pbarTotal ≤ update_progress_total pbarTotal newTotal := by
  cases newTotal with
  | none => exact Nat.le_refl _
  | some t =>
    simp only [update_progress_total]
    split
    · exact le_max_left _ _
    · exact Nat.le_refl _

/-- C9: when the final file already exists and overwrite is disabled,
`download_file` returns success with zero bytes transferred, increments
the skipped counter by one, and issues no size probe, no body request and
no retry — only the optional content-type probe of filename resolution can
have happened. -/
theorem C9_skip_existing (completed : List URL) (u : URL) (rp : String)
    (ntp : Bool) (hv : validate_url u = true)
    (hc : completed.contains u = false) :
    download_file_entry false completed u rp ntp true
      = ⟨some ⟨true, rp, 0⟩, 0, 1, (if ntp then 1 else 0), 0, 0, 0⟩ := by
  unfold download_file_entry
  rw [hv, hc]
  simp

/-- Witness for C9 at a concrete existing file. -/
theorem C9_skip_existing_witness :
    validate_url demo_url = true ∧
    (List.contains [] demo_url) = false ∧
    download_file_entry false [] demo_url "file.bin" false true
      = ⟨some ⟨true, "file.bin", 0⟩, 0, 1, 0, 0, 0, 0⟩ := by
  refine ⟨by decide, by decide, ?_⟩
  have h := C9_skip_existing [] demo_url "file.bin" false (by decide) (by decide)
  simpa using h

/-- Counts of the retry loop when every attempt fails, parametrized by the
remaining fuel `m + 1 - rc`. -/
theorem attempt_loop_aux_all_fail (m : Nat) (g : Nat → Nat) (j : Nat → ℚ) :
    ∀ fuel rc b, rc + fuel = m + 1 →
      (attempt_loop_aux m always_failing g j fuel rc b).attempts = fuel ∧
      (attempt_loop_aux m always_failing g j fuel rc b).success = false ∧
      (attempt_loop_aux m always_failing g j fuel rc b).failedInc = min fuel 1 := by
  intro fuel
  induction fuel with
  | zero => intro rc b h; simp [attempt_loop_aux]
  | succ n ih =>
    intro rc b h
    by_cases hm : m < rc + 1
    · have hn : n = 0 := by omega
      subst hn
      simp [attempt_loop_aux, always_failing, hm]
    · have h' : (rc + 1) + n = m + 1 := by omega
      have hr := ih (rc + 1) (b + g (rc + 1)) h'
      have hn : 1 ≤ n := by omega
      simp only [attempt_loop_aux, always_failing, Bool.false_eq_true, if_false,
        if_neg hm]
      refine ⟨by rw [hr.1], hr.2.1, ?_⟩
      rw [hr.2.2]
      omega

/-- C5: a job whose every attempt raises a transient error makes exactly
`max_retries + 1` attempts (one initial plus `max_retries` retries), ends
unsuccessfully, and increments the failed counter by exactly one. -/
theorem C5_retry_bound (m : Nat) (g : Nat → Nat) (j : Nat → ℚ) (b0 : Nat) :
    (download_attempt_loop m always_failing g j b0).attempts = m + 1 ∧
    (download_attempt_loop m always_failing g j b0).success = false ∧
    (download_attempt_loop m always_failing g j b0).failedInc = 1 := by
  have h := attempt_loop_aux_all_fail m g j (m + 1) 0 b0 (by omega)
  unfold download_attempt_loop
  refine ⟨h.1, h.2.1, ?_⟩
  rw [h.2.2]
  omega

/-- Every retry event of the all-failing loop records a delay of
`2 ^ attempt + jitter attempt` and re-enters streaming carrying the bytes
accumulated by attempts `1..attempt` on top of the initial count. -/
theorem attempt_loop_aux_all_fail_events (m : Nat) (g : Nat → Nat)
    (j : Nat → ℚ) (b0 : Nat) :
    ∀ fuel rc b, rc + fuel = m + 1 → b = b0 + gain_sum g rc →
      ∀ e ∈ (attempt_loop_aux m always_failing g j fuel rc b).events,
        e.delay = (2 : ℚ) ^ e.attempt + j e.attempt ∧
        e.bytesEntering = b0 + gain_sum g e.attempt ∧
        rc < e.attempt ∧ e.attempt ≤ m := by
  intro fuel
  induction fuel with
  | zero => intro rc b h hb e he; simp [attempt_loop_aux] at he
  | succ n ih =>
    intro rc b h hb e he
    by_cases hm : m < rc + 1
    · simp [attempt_loop_aux, always_failing, hm] at he
    · simp only [attempt_loop_aux, always_failing, Bool.false_eq_true, if_false,
        if_neg hm, List.mem_cons] at he
      rcases he with he | he
      · subst he
        refine ⟨rfl, ?_, Nat.lt_succ_self rc, ?_⟩
        · show b + g (rc + 1) = b0 + gain_sum g (rc + 1)
          rw [hb]
          simp only [gain_sum]
          omega
        · show rc + 1 ≤ m
          omega
      · have h' : (rc + 1) + n = m + 1 := by omega
        have hb' : b + g (rc + 1) = b0 + gain_sum g (rc + 1) := by
          rw [hb]
          simp only [gain_sum]
          omega
        obtain ⟨h1, h2, h3, h4⟩ := ih (rc + 1) (b + g (rc + 1)) h' hb' e he
        exact ⟨h1, h2, by omega, h4⟩

/-- C10: in a run whose attempts keep failing transiently, the `k`-th retry
(`k` starting at 1) waits exactly `2 ^ k + r` seconds with the random draw
`r` in `[0, 2]`, and streaming is re-entered with `downloaded_bytes` still
holding the initial count plus everything accumulated by attempts `1..k` —
the counter is preserved, never reset. -/
theorem C10_backoff_preserves_bytes (m : Nat) (g : Nat → Nat) (j : Nat → ℚ)
    (b0 : Nat) (e : RetryEvent)
    (he : e ∈ (download_attempt_loop m always_failing g j b0).events)
    (hj0 : 0 ≤ j e.attempt) (hj2 : j e.attempt ≤ 2) :
    e.delay = (2 : ℚ) ^ e.attempt + j e.attempt ∧
    (2 : ℚ) ^ e.attempt ≤ e.delay ∧
    e.delay ≤ (2 : ℚ) ^ e.attempt + 2 ∧
    e.bytesEntering = b0 + gain_sum g e.attempt ∧
    1 ≤ e.attempt ∧ e.attempt ≤ m := by
  have h := attempt_loop_aux_all_fail_events m g j b0 (m + 1) 0 b0 (by omega)
    (by simp [gain_sum]) e he
  exact ⟨h.1, by rw [h.1]; linarith, by rw [h.1]; linarith, h.2.1, h.2.2.1,
    h.2.2.2⟩

/-- Witness for C10: under `demo_gain` (attempt `k` gains `10 * k` bytes),
`demo_jitter` (constant 1 s) and 7 initial bytes, the first retry of a
2-retry budget waits 3 s and re-enters streaming with 17 bytes. -/
theorem C10_backoff_preserves_bytes_witness :
    demo_event ∈ (download_attempt_loop 2 always_failing demo_gain demo_jitter 7).events ∧
    0 ≤ demo_jitter demo_event.attempt ∧
    demo_jitter demo_event.attempt ≤ 2 ∧
    (demo_event.delay = (2 : ℚ) ^ demo_event.attempt + demo_jitter demo_event.attempt ∧
     (2 : ℚ) ^ demo_event.attempt ≤ demo_event.delay ∧
     demo_event.delay ≤ (2 : ℚ) ^ demo_event.attempt + 2 ∧
     demo_event.bytesEntering = 7 + gain_sum demo_gain demo_event.attempt ∧
     1 ≤ demo_event.attempt ∧ demo_event.attempt ≤ 2) := by
  have hmem : demo_event
      ∈ (download_attempt_loop 2 always_failing demo_gain demo_jitter 7).events :=
    List.mem_cons_self _ _
  have hj0 : 0 ≤ demo_jitter demo_event.attempt := by norm_num [demo_jitter]
  have hj2 : demo_jitter demo_event.attempt ≤ 2 := by norm_num [demo_jitter]
  exact ⟨hmem, hj0, hj2,
    C10_backoff_preserves_bytes 2 demo_gain demo_jitter 7 demo_event hmem hj0 hj2⟩

/-- Lower and upper bounds of the adaptive cooldown sequence. -/
theorem cooldown_seq_bounds (rd : Bool) (minD maxD : ℚ) (bd : Nat → ℚ)
    (c0 : ℚ) (h0 : 0 ≤ c0) (hcap : c0 ≤ 30) :
    ∀ n, 0 ≤ cooldown_seq rd minD maxD bd c0 n ∧
      cooldown_seq rd minD maxD bd c0 n ≤ 30 := by
  intro n
  induction n with
  | zero => exact ⟨h0, hcap⟩
  | succ k ih =>
    constructor
    · simp only [cooldown_seq, check_domain_cooldown_update]
      refine le_min ?_ ?_
      · nlinarith [ih.1]
      · norm_num
    · simp only [cooldown_seq, check_domain_cooldown_update]
      exact min_le_right _ _

/-- C8 counterexample: for an already-seen origin with previous cooldown 1
and a fresh base draw of 5 (inside the configured `[1, 5]` window), the
code computes `min(1 * 1.2, 30) = 1.2`, not the claimed
`max(base, 1 * 1.2) = 5` — the fresh base is ignored after the first
access. -/
theorem C8_counterexample :
    check_domain_cooldown_update true 1 5 5 (some 1)
      ≠ max 5 ((1 : ℚ) * (6 / 5)) := by
  simp only [check_domain_cooldown_update]
  norm_num

/-- C8 (amended): each recomputed cooldown of an already-seen origin is
`min(previous * 1.2, 30)` — the fresh base draw is not consulted — and the
resulting sequence is non-decreasing and capped at 30 whenever it starts
in `[0, 30]`. -/
theorem C8_cooldown_growth (rd : Bool) (minD maxD : ℚ) (bd : Nat → ℚ)
    (c0 : ℚ) (h0 : 0 ≤ c0) (hcap : c0 ≤ 30) (n : Nat) :
    cooldown_seq rd minD maxD bd c0 n ≤ cooldown_seq rd minD maxD bd c0 (n + 1) ∧
    cooldown_seq rd minD maxD bd c0 (n + 1)
      = min (cooldown_seq rd minD maxD bd c0 n * (6 / 5)) 30 ∧
    cooldown_seq rd minD maxD bd c0 n ≤ 30 := by
  obtain ⟨hge, hle⟩ := cooldown_seq_bounds rd minD maxD bd c0 h0 hcap n
  refine ⟨?_, rfl, hle⟩
  show cooldown_seq rd minD maxD bd c0 n
    ≤ min (cooldown_seq rd minD maxD bd c0 n * (6 / 5)) 30
  refine le_min ?_ hle
  nlinarith

/-- Witness for C8 at the starting cooldown 2 and a base draw of 100
(ignored by every recomputation). -/
theorem C8_cooldown_growth_witness :
    0 ≤ (2 : ℚ) ∧ (2 : ℚ) ≤ 30 ∧
    (cooldown_seq true 1 5 demo_base 2 3 ≤ cooldown_seq true 1 5 demo_base 2 4 ∧
     cooldown_seq true 1 5 demo_base 2 4
       = min (cooldown_seq true 1 5 demo_base 2 3 * (6 / 5)) 30 ∧
     cooldown_seq true 1 5 demo_base 2 3 ≤ 30) :=
  ⟨by norm_num, by norm_num,
   C8_cooldown_growth true 1 5 demo_base 2 (by norm_num) (by norm_num) 3⟩

end BatchDownloader
